import Mathlib

/-!
# ar_drone_2.0_video: the annotation probe, the bus handler and `main`

A shallow embedding of `ardrone_video_stream-checkpoint.c`.

* C integers: `guint` values are naturals reduced modulo `2 ^ 32`, `gint` values are
  integers in the signed 32-bit range, `%d` prints the signed reading of a 32-bit pattern.
* C strings: a buffer is a list of characters, the text it holds is what precedes the
  first NUL character.  A write past the end of an allocation is reported as `none`.
* GLib / GStreamer objects are reduced to the fields the program reads or writes.
* The global `frame_number` is threaded through every operation as `Globals`.
-/

namespace ArDrone

/-! ## Constants of the source -/

/-- The `#define MAX_DISPLAY_LEN 64` of the source. -/
def MAX_DISPLAY_LEN : Nat := 64

/-- The `#define PGIE_CLASS_ID_VEHICLE 0` of the source. -/
def PGIE_CLASS_ID_VEHICLE : Int := 0

/-- The `#define PGIE_CLASS_ID_PERSON 2` of the source. -/
def PGIE_CLASS_ID_PERSON : Int := 2

/-- The table `pgie_classes_str[4][32]` of the source. -/
def pgie_classes_str : List String := ["Vehicle", "TwoWheeler", "Person", "Roadsign"]

/-- The mutable globals of the program: `gint frame_number = 0;`. -/
structure Globals where
  frame_number : Int
  deriving DecidableEq

/-- The state of the globals when the process starts. -/
def Globals.initial : Globals := ⟨0⟩

/-! ## Machine arithmetic -/

/-- The `++` of a `guint`: unsigned 32-bit arithmetic wraps. -/
def guint_incr (n : Nat) : Nat := (n + 1) % 2 ^ 32

/-- The `++` of a `gint`. C leaves the step past `G_MAXINT` undefined; the two's
complement targets of the program wrap to `G_MININT`, which is what is modelled. -/
def gint_incr (n : Int) : Int := if n + 1 > 2 ^ 31 - 1 then n + 1 - 2 ^ 32 else n + 1

/-! ## `snprintf` into a fixed allocation -/

/-- The string terminator. -/
def NUL : Char := Char.ofNat 0

/-- The characters `%d` produces for a 32-bit argument: the pattern is read as a signed
`int`, so unsigned values from `2 ^ 31` on print as negative numbers. -/
def fmt_d (v : Nat) : List Char :=
  let w := v % 2 ^ 32
  if w < 2 ^ 31 then Nat.toDigits 10 w else '-' :: Nat.toDigits 10 (2 ^ 32 - w)

/-- The call `snprintf (buf + off, size, ...)` where the formatted text is `s`: at most
`size - 1` characters of `s` and a terminator are stored from index `off` on, and the
length of the whole of `s` is returned. `none` when the store leaves the allocation. -/
def snprintf (buf : List Char) (off size : Nat) (s : List Char) : Option (List Char × Nat) :=
  let w := s.take (size - 1) ++ [NUL]
  if size = 0 then some (buf, s.length)
  else if off + w.length ≤ buf.length then
    some (buf.take off ++ w ++ buf.drop (off + w.length), s.length)
  else none

/-- The text a character buffer holds when read as a C string. -/
def c_str (buf : List Char) : String := String.mk (buf.takeWhile (fun c => c != NUL))

/-- The formatted text of the first `snprintf`: `"Person = %d "`. -/
def person_field (person_count : Nat) : List Char :=
  "Person = ".toList ++ fmt_d person_count ++ " ".toList

/-- The formatted text of the second `snprintf`: `"Vehicle = %d "`. -/
def vehicle_field (vehicle_count : Nat) : List Char :=
  "Vehicle = ".toList ++ fmt_d vehicle_count ++ " ".toList

/-- Lines 189-191: `g_malloc0 (MAX_DISPLAY_LEN)` followed by the two `snprintf` calls, the
second at the offset the first returned and again with size `MAX_DISPLAY_LEN`. -/
def display_text (person_count vehicle_count : Nat) : Option String :=
  let buf0 := List.replicate MAX_DISPLAY_LEN NUL
  match snprintf buf0 0 MAX_DISPLAY_LEN (person_field person_count) with
  | none => none
  | some (buf1, offset) =>
    match snprintf buf1 offset MAX_DISPLAY_LEN (vehicle_field vehicle_count) with
    | none => none
    | some (buf2, _) => some (c_str buf2)

/-! ## Detection metadata and the overlay descriptor -/

/-- The field of `NvDsObjectMeta` the probe reads. -/
structure NvDsObjectMeta where
  class_id : Int
  deriving DecidableEq

/-- The field of `NvDsFrameMeta` the probe reads. -/
structure NvDsFrameMeta where
  obj_meta_list : List NvDsObjectMeta
  deriving DecidableEq

/-- The field of `NvDsBatchMeta` the probe reads. -/
structure NvDsBatchMeta where
  frame_meta_list : List NvDsFrameMeta
  deriving DecidableEq

/-- A colour; every component the source stores is `0.0` or `1.0`, kept here as `0` or `1`. -/
structure NvOSD_ColorParams where
  red : Nat
  green : Nat
  blue : Nat
  alpha : Nat
  deriving DecidableEq

/-- The font of a label. -/
structure NvOSD_FontParams where
  font_name : String
  font_size : Nat
  font_color : NvOSD_ColorParams
  deriving DecidableEq

/-- The label `text_params[0]` of a display meta. -/
structure NvOSD_TextParams where
  display_text : String
  x_offset : Nat
  y_offset : Nat
  font_params : NvOSD_FontParams
  set_bg_clr : Nat
  text_bg_clr : NvOSD_ColorParams
  deriving DecidableEq

/-- The display meta the probe fills in and attaches to a frame. -/
structure NvDsDisplayMeta where
  num_labels : Nat
  text_params : NvOSD_TextParams
  deriving DecidableEq

/-- The three local counters of the probe. -/
structure Counters where
  num_rects : Nat
  vehicle_count : Nat
  person_count : Nat
  deriving DecidableEq

/-- The body of the object loop, lines 176-184. -/
def count_obj (c : Counters) (obj_meta : NvDsObjectMeta) : Counters :=
  let c1 : Counters :=
    if obj_meta.class_id = PGIE_CLASS_ID_VEHICLE then
      { c with vehicle_count := guint_incr c.vehicle_count, num_rects := guint_incr c.num_rects }
    else c
  if obj_meta.class_id = PGIE_CLASS_ID_PERSON then
    { c1 with person_count := guint_incr c1.person_count, num_rects := guint_incr c1.num_rects }
  else c1

/-- The object loop of one frame, lines 174-185. -/
def count_objs (c : Counters) (objs : List NvDsObjectMeta) : Counters :=
  objs.foldl count_obj c

/-- Lines 188 and 193-210: one label with the given text and the fixed styling. -/
def label_meta (text : String) : NvDsDisplayMeta :=
  { num_labels := 1
    text_params :=
      { display_text := text
        x_offset := 10
        y_offset := 12
        font_params :=
          { font_name := "Courier"
            font_size := 24
            font_color := { red := 1, green := 1, blue := 1, alpha := 1 } }
        set_bg_clr := 1
        text_bg_clr := { red := 0, green := 0, blue := 0, alpha := 1 } } }

/-- Lines 186-210: the display meta built from the current counters. -/
def make_display_meta (c : Counters) : Option NvDsDisplayMeta :=
  match display_text c.person_count c.vehicle_count with
  | none => none
  | some text => some (label_meta text)

/-- The frame loop, lines 170-213. The counters are those declared at the top of the
function: they enter each frame with the value the previous frame left. The result lists
the display metas in the order of the frames they are attached to. -/
def frame_loop : Counters → List NvDsFrameMeta → Option (Counters × List NvDsDisplayMeta)
  | c, [] => some (c, [])
  | c, frame_meta :: rest =>
    let c1 := count_objs c frame_meta.obj_meta_list
    match make_display_meta c1 with
    | none => none
    | some display_meta =>
      match frame_loop c1 rest with
      | none => none
      | some (c2, metas) => some (c2, display_meta :: metas)

/-- The values of `GstPadProbeReturn`. -/
inductive GstPadProbeReturn where
  | GST_PAD_PROBE_DROP
  | GST_PAD_PROBE_OK
  | GST_PAD_PROBE_REMOVE
  | GST_PAD_PROBE_PASS
  | GST_PAD_PROBE_HANDLED
  deriving DecidableEq

/-- The four arguments of the `g_print` at lines 215-217. -/
structure ProbeLog where
  frame_number : Int
  num_rects : Nat
  vehicle_count : Nat
  person_count : Nat
  deriving DecidableEq

/-- What one call of the probe leaves behind. -/
structure ProbeResult where
  ret : GstPadProbeReturn
  globals : Globals
  display_meta : List NvDsDisplayMeta
  log : ProbeLog
  deriving DecidableEq

/-- The function `osd_sink_pad_buffer_probe`, lines 157-220. -/
def osd_sink_pad_buffer_probe (g : Globals) (batch_meta : NvDsBatchMeta) : Option ProbeResult :=
  match frame_loop ⟨0, 0, 0⟩ batch_meta.frame_meta_list with
  | none => none
  | some (c, metas) =>
    some
      { ret := GstPadProbeReturn.GST_PAD_PROBE_OK
        globals := { g with frame_number := gint_incr g.frame_number }
        display_meta := metas
        log := ⟨g.frame_number, c.num_rects, c.vehicle_count, c.person_count⟩ }

/-- A detection of one of the two classes the probe counts. -/
def is_tracked (obj_meta : NvDsObjectMeta) : Bool :=
  obj_meta.class_id = PGIE_CLASS_ID_VEHICLE ∨ obj_meta.class_id = PGIE_CLASS_ID_PERSON

/-- The texts of the labels a call of the probe attached, in frame order. -/
def label_texts (r : ProbeResult) : List String :=
  r.display_meta.map (fun d => d.text_params.display_text)

/-! ## The RTSP publisher -/

/-- What the RTSP library would report to `start_rtsp_streaming`: whether a factory is
already mounted at the path (`gst_rtsp_mount_points_add_factory` returns nothing) and the
source id `gst_rtsp_server_attach` returns, `0` when the server cannot attach. -/
structure RtspServerEnv where
  path_mounted : Bool
  attach_id : Nat
  deriving DecidableEq

/-- What `start_rtsp_streaming` leaves behind. -/
structure RtspResult where
  ret : Bool
  globals : Globals
  service : String
  mount_path : String
  launch : String
  out : List String
  deriving DecidableEq

/-- The function `start_rtsp_streaming`, lines 222-261. The result of
`gst_rtsp_server_attach` is not read. -/
def start_rtsp_streaming (g : Globals) (rtsp_port_num updsink_port_num : Nat)
    (_env : RtspServerEnv) : RtspResult :=
  let encoder_name := "H264"
  let udpsrc_pipeline :=
    "( udpsrc name=pay0 port=" ++ String.mk (fmt_d updsink_port_num) ++
      " caps=\"application/x-rtp, media=video, " ++
      "clock-rate=90000, encoding-name=" ++ encoder_name ++ ", payload=96 \" )"
  let port_num_Str := String.mk (fmt_d rtsp_port_num)
  { ret := true
    globals := g
    service := port_num_Str
    mount_path := "/ds-test"
    launch := udpsrc_pipeline
    out := ["\n *** DeepStream: Launched RTSP Streaming at rtsp://localhost:" ++
      String.mk (fmt_d rtsp_port_num) ++ "/ds-test ***\n\n"] }

/-! ## The bus handler -/

/-- The value of `GST_MESSAGE_EOS` in `GstMessageType`. -/
def GST_MESSAGE_EOS : Nat := 1

/-- The value of `GST_MESSAGE_ERROR` in `GstMessageType`. -/
def GST_MESSAGE_ERROR : Nat := 2

/-- The value of `GST_MESSAGE_STATE_CHANGED` in `GstMessageType`. -/
def GST_MESSAGE_STATE_CHANGED : Nat := 64

/-- A bus message: its type, the name of its source, and what `gst_message_parse_error`
extracts from it. -/
structure GstMessage where
  type : Nat
  src_name : String
  error_message : String
  debug : Option String
  deriving DecidableEq

/-- The field of `GMainLoop` that `g_main_loop_run` polls. -/
structure GMainLoop where
  is_running : Bool
  deriving DecidableEq

/-- The library call `g_main_loop_quit`. -/
def g_main_loop_quit (_loop : GMainLoop) : GMainLoop := { is_running := false }

/-- What one call of `bus_call` leaves behind. -/
structure BusCallResult where
  ret : Bool
  loop : GMainLoop
  globals : Globals
  out : List String
  deriving DecidableEq

/-- The function `bus_call`, lines 263-288. -/
def bus_call (g : Globals) (msg : GstMessage) (loop : GMainLoop) : BusCallResult :=
  if msg.type = GST_MESSAGE_EOS then
    { ret := true, loop := g_main_loop_quit loop, globals := g, out := ["End of stream\n"] }
  else if msg.type = GST_MESSAGE_ERROR then
    { ret := true
      loop := g_main_loop_quit loop
      globals := g
      out :=
        ("ERROR from element " ++ msg.src_name ++ ": " ++ msg.error_message ++ "\n") ::
          (match msg.debug with
           | some d => ["Error details: " ++ d ++ "\n"]
           | none => []) }
  else { ret := true, loop := loop, globals := g, out := [] }

/-- The globals and the loop after `bus_call` has handled each message of a sequence in
turn. -/
def deliver (g : Globals) (loop : GMainLoop) (msgs : List GstMessage) : Globals × GMainLoop :=
  msgs.foldl (fun s msg => ((bus_call s.1 msg s.2).globals, (bus_call s.1 msg s.2).loop)) (g, loop)

/-! ## `main` -/

/-- The outcome of every `gst_pipeline_new` / `gst_element_factory_make` call of `main`:
`true` when the call returned an element, `false` when it returned `NULL`. -/
structure Elements where
  pipeline : Bool
  source : Bool
  filter_src : Bool
  h264parser : Bool
  decoder : Bool
  streammux : Bool
  pgie : Bool
  nvvidconv : Bool
  nvosd : Bool
  transform : Bool
  cap_filter : Bool
  encoder : Bool
  rtppay : Bool
  xvimagesink : Bool
  sink : Bool
  deriving DecidableEq

/-- Every constructor call of `main` succeeded. -/
def all_created : Elements :=
  { pipeline := true, source := true, filter_src := true, h264parser := true, decoder := true
    streammux := true, pgie := true, nvvidconv := true, nvosd := true, transform := true
    cap_filter := true, encoder := true, rtppay := true, xvimagesink := true, sink := true }

/-- The elements `main` tests against `NULL` before it goes on. -/
def checked_created (e : Elements) : Bool :=
  e.pipeline && e.streammux && e.source && e.h264parser && e.decoder && e.xvimagesink && e.sink

/-- The eight elements `main` never tests against `NULL`. -/
def unchecked_created (e : Elements) : Bool :=
  e.filter_src && e.pgie && e.nvvidconv && e.nvosd && e.transform && e.cap_filter &&
    e.encoder && e.rtppay

/-- The values of `GstState`. -/
inductive GstState where
  | GST_STATE_VOID_PENDING
  | GST_STATE_NULL
  | GST_STATE_READY
  | GST_STATE_PAUSED
  | GST_STATE_PLAYING
  deriving DecidableEq

/-- The library call `gst_bus_timed_pop_filtered (bus, GST_CLOCK_TIME_NONE, types)` on the
messages the bus will carry: messages of other types are dropped, the first message whose
type is in `types` is returned, and the call never returns (`none`) when there is none. -/
def gst_bus_timed_pop_filtered (types : Nat) : List GstMessage → Option (GstMessage × List GstMessage)
  | [] => none
  | msg :: rest =>
    if msg.type &&& types ≠ 0 then some (msg, rest) else gst_bus_timed_pop_filtered types rest

/-- What a run of the main loop leaves behind; `returned` is `false` when the loop waits
for ever. -/
structure LoopRun where
  returned : Bool
  loop : GMainLoop
  globals : Globals
  out : List String
  deriving DecidableEq

/-- The dispatch of `g_main_loop_run`: each message goes to the watch `bus_call`; the loop
returns once it is no longer running, and waits for ever when the messages run out or the
watch removed itself by returning `FALSE`. -/
def dispatch (g : Globals) (loop : GMainLoop) (out : List String) : List GstMessage → LoopRun
  | [] => { returned := false, loop := loop, globals := g, out := out }
  | msg :: rest =>
    let r := bus_call g msg loop
    if !r.loop.is_running then
      { returned := true, loop := r.loop, globals := r.globals, out := out ++ r.out }
    else if r.ret then dispatch r.globals r.loop (out ++ r.out) rest
    else { returned := false, loop := r.loop, globals := r.globals, out := out ++ r.out }

/-- The library call `g_main_loop_run` with `bus_call` as the only watch. -/
def g_main_loop_run (g : Globals) (_loop : GMainLoop) (msgs : List GstMessage) : LoopRun :=
  dispatch g { is_running := true } [] msgs

/-- How a run of `main` ends: it returns a value, it waits for ever, or the process is
killed by a read through a `NULL` pointer. -/
inductive MainExit where
  | returned (code : Int)
  | blocked
  | crashed
  deriving DecidableEq

/-- What a run of `main` leaves behind: how it ended, the states passed to
`gst_element_set_state` in order, the lines `main` and the functions it calls print (the
text of the capability dumps of `print_pad_templates_information` and
`print_pad_capabilities` left out), and the globals. -/
structure MainResult where
  outcome : MainExit
  set_state_calls : List GstState
  out : List String
  globals : Globals
  deriving DecidableEq

/-- An early `return -1` of `main` after printing `line`. -/
def main_abort (g : Globals) (line : String) : MainResult :=
  { outcome := MainExit.returned (-1), set_state_calls := [], out := [line], globals := g }

/-- The library call `gst_element_get_factory`, reduced to whether its result is a factory:
for a `NULL` element the library refuses the call and returns `NULL`. -/
def gst_element_get_factory (element : Bool) : Bool := element

/-- The function `print_pad_templates_information`, lines 81-126, reduced to whether it
returns: line 86 asks `gst_element_factory_get_longname` for the name of the factory, which
reads `factory->metadata` without a test, so a `NULL` factory ends the process there. -/
def print_pad_templates_information (factory : Bool) : Bool := factory

/-- Lines 404-414 of `main`: the eleven capability dumps in the order of the source; `true`
when every one of them returns. -/
def capability_dumps (e : Elements) : Bool :=
  [e.source, e.filter_src, e.streammux, e.pgie, e.nvvidconv, e.nvosd, e.transform,
    e.cap_filter, e.encoder, e.sink, e.rtppay].all
    (fun element => print_pad_templates_information (gst_element_get_factory element))

/-- Lines 417-533 of `main`: the watch is installed, the RTSP server started, the pipeline
set to Playing; `gst_bus_timed_pop_filtered` waits for a first Error or EndOfStream message,
then the main loop runs; once it returns the pipeline is set to Null and `main` returns 0. -/
def main_playback (g : Globals) (env : RtspServerEnv) (bus : List GstMessage) : MainResult :=
  let r := start_rtsp_streaming g 8554 5400 env
  let out1 := "In NULL state:\n" :: r.out
  let out2 := if r.ret != true then out1 ++ ["main: start_rtsp_straming function failed\n"] else out1
  let out3 := out2 ++ ["Now playing: \n"]
  match gst_bus_timed_pop_filtered (GST_MESSAGE_ERROR ||| GST_MESSAGE_EOS) bus with
  | none =>
    { outcome := MainExit.blocked, set_state_calls := [GstState.GST_STATE_PLAYING], out := out3
      globals := r.globals }
  | some (_, rest) =>
    let run := g_main_loop_run r.globals { is_running := false } rest
    if run.returned then
      { outcome := MainExit.returned 0
        set_state_calls := [GstState.GST_STATE_PLAYING, GstState.GST_STATE_NULL]
        out := out3 ++ run.out ++ ["Returned, stopping playback\n", "Deleting pipeline\n"]
        globals := run.globals }
    else
      { outcome := MainExit.blocked, set_state_calls := [GstState.GST_STATE_PLAYING]
        out := out3 ++ run.out, globals := run.globals }

/-- The function `main`, lines 290-534, on the outcome `e` of the element constructors,
the answers `env` of the RTSP library and the messages `bus` the pipeline posts. A
`g_object_set` on a `NULL` element is refused by the library with a warning and has no
further effect; the first capability dump on a `NULL` element ends the process. -/
def main (e : Elements) (env : RtspServerEnv) (bus : List GstMessage) : MainResult :=
  let g := Globals.initial
  if !e.pipeline || !e.streammux then
    main_abort g "One element could not be created. Exiting.\n"
  else if !e.source then
    main_abort g "Source element could not be created. Exiting.\n"
  else if !e.h264parser then
    main_abort g "h264parser element could not be created. Exiting.\n"
  else if !e.decoder then
    main_abort g "nvv4l2decoder element could not be created. Exiting.\n"
  else if !e.xvimagesink then
    main_abort g "xvimagesink element could not be created. Exiting.\n"
  else if !e.sink then
    main_abort g "udpsink element could not be created. Exiting.\n"
  else if !capability_dumps e then
    { outcome := MainExit.crashed, set_state_calls := [], out := [], globals := g }
  else main_playback g env bus

/-! ## The label text -/

theorem digitChar_ne_NUL (n : Nat) : Nat.digitChar (n % 10) ≠ NUL := by
  have h : n % 10 < 10 := Nat.mod_lt _ (by decide)
  generalize n % 10 = m at h
  interval_cases m <;> decide

theorem toDigitsCore_ne_NUL (fuel : Nat) :
    ∀ (n : Nat) (ds : List Char), (∀ c ∈ ds, c ≠ NUL) →
      ∀ c ∈ Nat.toDigitsCore 10 fuel n ds, c ≠ NUL := by
  induction fuel with
  | zero => intro n ds hds c hc; exact hds c (by simpa [Nat.toDigitsCore] using hc)
  | succ fuel ih =>
    intro n ds hds c hc
    have hds2 : ∀ c ∈ Nat.digitChar (n % 10) :: ds, c ≠ NUL := by
      intro c hc
      rcases List.mem_cons.mp hc with h | h
      · rw [h]; exact digitChar_ne_NUL _
      · exact hds c h
    simp only [Nat.toDigitsCore] at hc
    split at hc
    · exact hds2 c hc
    · exact ih _ _ hds2 c hc

theorem toDigits_ne_NUL (n : Nat) : ∀ c ∈ Nat.toDigits 10 n, c ≠ NUL :=
  toDigitsCore_ne_NUL _ _ _ (by simp)

theorem toDigits_length_le (n : Nat) (h : n < 10 ^ 10) : (Nat.toDigits 10 n).length ≤ 10 := by
  have := Nat.repr_length n 10 (by decide) h
  simpa [Nat.repr, List.asString, String.length] using this

theorem fmt_d_length_le (v : Nat) : (fmt_d v).length ≤ 11 := by
  unfold fmt_d
  have hw : v % 2 ^ 32 < 2 ^ 32 := Nat.mod_lt _ (by decide)
  generalize v % 2 ^ 32 = w at hw
  simp only
  split
  · have := toDigits_length_le w (by omega)
    omega
  · have := toDigits_length_le (2 ^ 32 - w) (by omega)
    simp only [List.length_cons]
    omega

theorem fmt_d_ne_NUL (v : Nat) : ∀ c ∈ fmt_d v, c ≠ NUL := by
  unfold fmt_d
  simp only
  split
  · exact toDigits_ne_NUL _
  · intro c hc
    rcases List.mem_cons.mp hc with h | h
    · rw [h]; decide
    · exact toDigits_ne_NUL _ c h

theorem fmt_d_of_lt (v : Nat) (h : v < 2 ^ 31) : fmt_d v = Nat.toDigits 10 v := by
  have hmod : v % 2 ^ 32 = v := Nat.mod_eq_of_lt (by omega)
  show (if v % 2 ^ 32 < 2 ^ 31 then Nat.toDigits 10 (v % 2 ^ 32)
    else '-' :: Nat.toDigits 10 (2 ^ 32 - v % 2 ^ 32)) = _
  rw [hmod, if_pos h]

theorem takeWhile_until_NUL (s rest : List Char) (hs : ∀ c ∈ s, c ≠ NUL) :
    (s ++ NUL :: rest).takeWhile (fun c => c != NUL) = s := by
  induction s with
  | nil => simp [List.takeWhile]
  | cons a s ih =>
    have ha : a ≠ NUL := hs a (List.mem_cons_self _ _)
    have hs2 : ∀ c ∈ s, c ≠ NUL := fun c hc => hs c (List.mem_cons_of_mem _ hc)
    have hb : (a != NUL) = true := by simpa using ha
    rw [List.cons_append, List.takeWhile_cons, hb, ih hs2]
    rfl

theorem snprintf_fits (buf : List Char) (off size : Nat) (s : List Char)
    (hsize : s.length < size) (hbuf : off + s.length + 1 ≤ buf.length) :
    snprintf buf off size s =
      some (buf.take off ++ (s ++ [NUL]) ++ buf.drop (off + s.length + 1), s.length) := by
  have htake : s.take (size - 1) = s := List.take_of_length_le (by omega)
  have hne : size ≠ 0 := by omega
  unfold snprintf
  simp only [htake, List.length_append, List.length_singleton, if_neg hne]
  rw [if_pos (by omega)]
  rfl

theorem person_field_length_le (p : Nat) : (person_field p).length ≤ 21 := by
  have := fmt_d_length_le p
  simp only [person_field, List.length_append]
  have h1 : "Person = ".toList.length = 9 := by decide
  have h2 : " ".toList.length = 1 := by decide
  omega

theorem vehicle_field_length_le (v : Nat) : (vehicle_field v).length ≤ 22 := by
  have := fmt_d_length_le v
  simp only [vehicle_field, List.length_append]
  have h1 : "Vehicle = ".toList.length = 10 := by decide
  have h2 : " ".toList.length = 1 := by decide
  omega

theorem person_field_ne_NUL (p : Nat) : ∀ c ∈ person_field p, c ≠ NUL := by
  intro c hc
  simp only [person_field, List.mem_append] at hc
  rcases hc with (h | h) | h
  · revert c; decide
  · exact fmt_d_ne_NUL p c h
  · revert c; decide

theorem vehicle_field_ne_NUL (v : Nat) : ∀ c ∈ vehicle_field v, c ≠ NUL := by
  intro c hc
  simp only [vehicle_field, List.mem_append] at hc
  rcases hc with (h | h) | h
  · revert c; decide
  · exact fmt_d_ne_NUL v c h
  · revert c; decide

/-- The two `snprintf` calls store both fields one after the other. -/
theorem display_text_eq (p v : Nat) :
    display_text p v = some (String.mk (person_field p ++ vehicle_field v)) := by
  have h1 := person_field_length_le p
  have h2 := vehicle_field_length_le v
  generalize hs1 : person_field p = s1 at h1
  generalize hs2 : vehicle_field v = s2 at h2
  have n1 : ∀ c ∈ s1, c ≠ NUL := hs1 ▸ person_field_ne_NUL p
  have n2 : ∀ c ∈ s2, c ≠ NUL := hs2 ▸ vehicle_field_ne_NUL v
  unfold display_text
  simp only [hs1, hs2]
  rw [snprintf_fits _ 0 MAX_DISPLAY_LEN s1 (by simp [MAX_DISPLAY_LEN]; omega)
    (by simp [MAX_DISPLAY_LEN]; omega)]
  simp only
  rw [snprintf_fits _ s1.length MAX_DISPLAY_LEN s2 (by simp [MAX_DISPLAY_LEN]; omega)
    (by simp [MAX_DISPLAY_LEN]; omega)]
  simp only [c_str]
  congr 2
  have htk : ∀ r : List Char, (List.take 0 (List.replicate MAX_DISPLAY_LEN NUL) ++ (s1 ++ [NUL]) ++ r).take
      s1.length = s1 := by
    intro r
    simp
  rw [htk]
  have : s1 ++ (s2 ++ [NUL]) ++ List.drop (s1.length + s2.length + 1)
      (List.take 0 (List.replicate MAX_DISPLAY_LEN NUL) ++ (s1 ++ [NUL]) ++
        List.drop (0 + s1.length + 1) (List.replicate MAX_DISPLAY_LEN NUL)) =
      (s1 ++ s2) ++ NUL :: List.drop (s1.length + s2.length + 1)
      (List.take 0 (List.replicate MAX_DISPLAY_LEN NUL) ++ (s1 ++ [NUL]) ++
        List.drop (0 + s1.length + 1) (List.replicate MAX_DISPLAY_LEN NUL)) := by
    simp
  rw [this]
  apply takeWhile_until_NUL
  intro c hc
  rcases List.mem_append.mp hc with h | h
  · exact n1 c h
  · exact n2 c h

/-! ## The counters -/

theorem count_obj_comm (c : Counters) (a b : NvDsObjectMeta) :
    count_obj (count_obj c a) b = count_obj (count_obj c b) a := by
  simp only [count_obj]
  split_ifs <;> rfl

theorem count_obj_untracked (c : Counters) (o : NvDsObjectMeta) (h : is_tracked o = false) :
    count_obj c o = c := by
  have h2 : ¬ (o.class_id = PGIE_CLASS_ID_VEHICLE ∨ o.class_id = PGIE_CLASS_ID_PERSON) := by
    simpa [is_tracked] using h
  simp only [count_obj]
  rw [if_neg (fun hv => h2 (Or.inl hv)), if_neg (fun hp => h2 (Or.inr hp))]

theorem count_objs_filter (objs : List NvDsObjectMeta) :
    ∀ c, count_objs c (objs.filter is_tracked) = count_objs c objs := by
  induction objs with
  | nil => intro c; rfl
  | cons o objs ih =>
    intro c
    cases h : is_tracked o
    · rw [List.filter_cons_of_neg (by simp [h])]
      simp only [count_objs, List.foldl_cons] at ih ⊢
      rw [count_obj_untracked c o h]
      exact ih c
    · rw [List.filter_cons_of_pos (by simp [h])]
      simp only [count_objs, List.foldl_cons] at ih ⊢
      exact ih _

theorem count_objs_perm {l1 l2 : List NvDsObjectMeta} (h : l1.Perm l2) (c : Counters) :
    count_objs c l1 = count_objs c l2 :=
  h.foldl_eq' (fun x _ y _ z => count_obj_comm z x y) c

/-- From zero, the object loop leaves each counter at the number of matching detections,
reduced modulo `2 ^ 32`. -/
theorem count_objs_from (objs : List NvDsObjectMeta) :
    ∀ n v p : Nat,
      count_objs ⟨n % 2 ^ 32, v % 2 ^ 32, p % 2 ^ 32⟩ objs =
        ⟨(n + objs.countP (fun o => o.class_id = PGIE_CLASS_ID_VEHICLE) +
            objs.countP (fun o => o.class_id = PGIE_CLASS_ID_PERSON)) % 2 ^ 32,
          (v + objs.countP (fun o => o.class_id = PGIE_CLASS_ID_VEHICLE)) % 2 ^ 32,
          (p + objs.countP (fun o => o.class_id = PGIE_CLASS_ID_PERSON)) % 2 ^ 32⟩ := by
  induction objs with
  | nil => intro n v p; simp [count_objs]
  | cons o objs ih =>
    intro n v p
    have hstep : ∀ k : Nat, guint_incr (k % 2 ^ 32) = (k + 1) % 2 ^ 32 := by
      intro k; simp only [guint_incr]; omega
    simp only [count_objs, List.foldl_cons] at ih ⊢
    have hcv : List.countP (fun o => decide (o.class_id = PGIE_CLASS_ID_VEHICLE)) (o :: objs) =
        List.countP (fun o => decide (o.class_id = PGIE_CLASS_ID_VEHICLE)) objs +
          if o.class_id = PGIE_CLASS_ID_VEHICLE then 1 else 0 := by
      rw [List.countP_cons]; simp
    have hcp : List.countP (fun o => decide (o.class_id = PGIE_CLASS_ID_PERSON)) (o :: objs) =
        List.countP (fun o => decide (o.class_id = PGIE_CLASS_ID_PERSON)) objs +
          if o.class_id = PGIE_CLASS_ID_PERSON then 1 else 0 := by
      rw [List.countP_cons]; simp
    rw [hcv, hcp]
    by_cases hv : o.class_id = PGIE_CLASS_ID_VEHICLE
    · have hp : ¬ o.class_id = PGIE_CLASS_ID_PERSON := by
        rw [hv]; decide
      have hco : count_obj ⟨n % 2 ^ 32, v % 2 ^ 32, p % 2 ^ 32⟩ o =
          ⟨(n + 1) % 2 ^ 32, (v + 1) % 2 ^ 32, p % 2 ^ 32⟩ := by
        simp only [count_obj, if_pos hv, if_neg hp, hstep]
      rw [hco, ih, if_pos hv, if_neg hp]
      simp only [Counters.mk.injEq]
      refine ⟨?_, ?_, ?_⟩ <;> congr 1 <;> omega
    · by_cases hp : o.class_id = PGIE_CLASS_ID_PERSON
      · have hco : count_obj ⟨n % 2 ^ 32, v % 2 ^ 32, p % 2 ^ 32⟩ o =
            ⟨(n + 1) % 2 ^ 32, v % 2 ^ 32, (p + 1) % 2 ^ 32⟩ := by
          simp only [count_obj, if_neg hv, if_pos hp, hstep]
        rw [hco, ih, if_neg hv, if_pos hp]
        simp only [Counters.mk.injEq]
        refine ⟨?_, ?_, ?_⟩ <;> congr 1 <;> omega
      · have hco : count_obj ⟨n % 2 ^ 32, v % 2 ^ 32, p % 2 ^ 32⟩ o =
            ⟨n % 2 ^ 32, v % 2 ^ 32, p % 2 ^ 32⟩ := by
          simp only [count_obj, if_neg hv, if_neg hp]
        rw [hco, ih, if_neg hv, if_neg hp]
        rfl

/-! ## The frame loop -/

theorem make_display_meta_eq (c : Counters) :
    make_display_meta c =
      some (label_meta (String.mk (person_field c.person_count ++ vehicle_field c.vehicle_count))) := by
  simp only [make_display_meta, display_text_eq]

theorem frame_loop_cons (c : Counters) (f : NvDsFrameMeta) (fs : List NvDsFrameMeta) :
    frame_loop c (f :: fs) =
      (frame_loop (count_objs c f.obj_meta_list) fs).map (fun r =>
        (r.1, label_meta (String.mk
          (person_field (count_objs c f.obj_meta_list).person_count ++
            vehicle_field (count_objs c f.obj_meta_list).vehicle_count)) :: r.2)) := by
  rw [frame_loop]
  simp only [make_display_meta_eq]
  cases frame_loop (count_objs c f.obj_meta_list) fs <;> rfl

theorem frame_loop_returns (fs : List NvDsFrameMeta) :
    ∀ c, ∃ r, frame_loop c fs = some r := by
  induction fs with
  | nil => intro c; exact ⟨_, rfl⟩
  | cons f fs ih =>
    intro c
    obtain ⟨r, hr⟩ := ih (count_objs c f.obj_meta_list)
    rw [frame_loop_cons, hr]
    exact ⟨_, rfl⟩

theorem frame_loop_congr {fs1 fs2 : List NvDsFrameMeta}
    (h : List.Forall₂ (fun f1 f2 : NvDsFrameMeta =>
      ∀ c, count_objs c f1.obj_meta_list = count_objs c f2.obj_meta_list) fs1 fs2) :
    ∀ c, frame_loop c fs1 = frame_loop c fs2 := by
  induction h with
  | nil => intro c; rfl
  | cons hf _ ih =>
    intro c
    rw [frame_loop_cons, frame_loop_cons, hf c, ih]

theorem probe_returns (g : Globals) (b : NvDsBatchMeta) :
    ∃ r, osd_sink_pad_buffer_probe g b = some r ∧
      r.ret = GstPadProbeReturn.GST_PAD_PROBE_OK ∧
      r.globals.frame_number = gint_incr g.frame_number ∧
      r.log.frame_number = g.frame_number := by
  obtain ⟨r, hr⟩ := frame_loop_returns b.frame_meta_list ⟨0, 0, 0⟩
  unfold osd_sink_pad_buffer_probe
  rw [hr]
  exact ⟨_, rfl, rfl, rfl, rfl⟩

theorem probe_congr (g : Globals) {b1 b2 : NvDsBatchMeta}
    (h : ∀ c, frame_loop c b1.frame_meta_list = frame_loop c b2.frame_meta_list) :
    osd_sink_pad_buffer_probe g b1 = osd_sink_pad_buffer_probe g b2 := by
  unfold osd_sink_pad_buffer_probe
  rw [h]

theorem toString_fields (N M : Nat) :
    String.mk (("Person = ".toList ++ Nat.toDigits 10 N ++ " ".toList) ++
        ("Vehicle = ".toList ++ Nat.toDigits 10 M ++ " ".toList)) =
      "Person = " ++ toString N ++ " Vehicle = " ++ toString M ++ " " := by
  apply String.ext
  simp only [String.data_append]
  show _ = "Person = ".data ++ (Nat.toDigits 10 N) ++ " Vehicle = ".data ++ (Nat.toDigits 10 M) ++ " ".data
  have : " Vehicle = ".data = " ".toList ++ "Vehicle = ".toList := by decide
  rw [this]
  simp [String.toList]

/-! ## Claims about the annotation probe -/

/-- Claim C10: for every pair of counter values the two fields together are at most
`MAX_DISPLAY_LEN - 1 = 63` characters long, neither `snprintf` stores outside the 64-byte
allocation (the result is not `none`), and the text held is the two fields in full. -/
theorem label_fits_buffer (person_count vehicle_count : Nat) :
    (person_field person_count ++ vehicle_field vehicle_count).length ≤ MAX_DISPLAY_LEN - 1 ∧
      display_text person_count vehicle_count =
        some (String.mk (person_field person_count ++ vehicle_field vehicle_count)) := by
  refine ⟨?_, display_text_eq _ _⟩
  have h1 := person_field_length_le person_count
  have h2 := vehicle_field_length_le vehicle_count
  simp only [List.length_append, MAX_DISPLAY_LEN] at *
  omega

/-- Claim C1, as stated, fails: on a single frame with five persons and three vehicles
(and two detections of other classes) the label text is not `"Person = 5 Vehicle = 3"`;
the text the probe stores ends in the space of the format `"Vehicle = %d "`. Moreover a
tally of `2 ^ 31` is printed by `%d` as a negative number. -/
theorem label_text_keeps_trailing_space :
    (osd_sink_pad_buffer_probe ⟨0⟩
        ⟨[⟨[⟨0⟩, ⟨2⟩, ⟨1⟩, ⟨2⟩, ⟨0⟩, ⟨2⟩, ⟨2⟩, ⟨0⟩, ⟨2⟩, ⟨3⟩]⟩]⟩).map label_texts
      ≠ some ["Person = 5 Vehicle = 3"] ∧
    (osd_sink_pad_buffer_probe ⟨0⟩
        ⟨[⟨[⟨0⟩, ⟨2⟩, ⟨1⟩, ⟨2⟩, ⟨0⟩, ⟨2⟩, ⟨2⟩, ⟨0⟩, ⟨2⟩, ⟨3⟩]⟩]⟩).map label_texts
      = some ["Person = 5 Vehicle = 3 "] ∧
    display_text 2147483648 0 = some "Person = -2147483648 Vehicle = 0 " := by
  decide

/-- Claim C1, amended: for a batch of a single frame with `N` person detections and `M`
vehicle detections, both below `2 ^ 31`, the probe attaches exactly one display meta to
the frame, with one label of the fixed styling whose text is
`"Person = N Vehicle = M "`, each number in decimal and each followed by one space. -/
theorem single_frame_label (g : Globals) (objs : List NvDsObjectMeta) (N M : Nat)
    (hN : objs.countP (fun o => o.class_id = PGIE_CLASS_ID_PERSON) = N)
    (hM : objs.countP (fun o => o.class_id = PGIE_CLASS_ID_VEHICLE) = M)
    (hNlt : N < 2 ^ 31) (hMlt : M < 2 ^ 31) :
    ∃ r, osd_sink_pad_buffer_probe g ⟨[⟨objs⟩]⟩ = some r ∧
      r.display_meta =
        [label_meta ("Person = " ++ toString N ++ " Vehicle = " ++ toString M ++ " ")] ∧
      r.log.person_count = N ∧ r.log.vehicle_count = M := by
  have hc := count_objs_from objs 0 0 0
  simp only [Nat.zero_mod, Nat.zero_add, hN, hM] at hc
  have hNm : N % 2 ^ 32 = N := Nat.mod_eq_of_lt (by omega)
  have hMm : M % 2 ^ 32 = M := Nat.mod_eq_of_lt (by omega)
  rw [hNm, hMm] at hc
  have hp : osd_sink_pad_buffer_probe g ⟨[⟨objs⟩]⟩ =
      some
        { ret := GstPadProbeReturn.GST_PAD_PROBE_OK
          globals := { g with frame_number := gint_incr g.frame_number }
          display_meta := [label_meta (String.mk (person_field N ++ vehicle_field M))]
          log := ⟨g.frame_number, (M + N) % 2 ^ 32, M, N⟩ } := by
    unfold osd_sink_pad_buffer_probe
    simp only [frame_loop, make_display_meta_eq, hc]
  refine ⟨_, hp, ?_, rfl, rfl⟩
  simp only [person_field, vehicle_field, fmt_d_of_lt N hNlt, fmt_d_of_lt M hMlt,
    toString_fields]

/-- A single frame with five persons, three vehicles and two other detections is labelled
`"Person = 5 Vehicle = 3 "`. -/
theorem single_frame_label_witness :
    ([⟨0⟩, ⟨2⟩, ⟨1⟩, ⟨2⟩, ⟨0⟩, ⟨2⟩, ⟨2⟩, ⟨0⟩, ⟨2⟩, ⟨3⟩] : List NvDsObjectMeta).countP
        (fun o => o.class_id = PGIE_CLASS_ID_PERSON) = 5 ∧
    ([⟨0⟩, ⟨2⟩, ⟨1⟩, ⟨2⟩, ⟨0⟩, ⟨2⟩, ⟨2⟩, ⟨0⟩, ⟨2⟩, ⟨3⟩] : List NvDsObjectMeta).countP
        (fun o => o.class_id = PGIE_CLASS_ID_VEHICLE) = 3 ∧
    ∃ r, osd_sink_pad_buffer_probe ⟨0⟩
        ⟨[⟨[⟨0⟩, ⟨2⟩, ⟨1⟩, ⟨2⟩, ⟨0⟩, ⟨2⟩, ⟨2⟩, ⟨0⟩, ⟨2⟩, ⟨3⟩]⟩]⟩ = some r ∧
      r.display_meta =
        [label_meta ("Person = " ++ toString 5 ++ " Vehicle = " ++ toString 3 ++ " ")] ∧
      r.log.person_count = 5 ∧ r.log.vehicle_count = 3 :=
  ⟨by decide, by decide,
    single_frame_label ⟨0⟩ [⟨0⟩, ⟨2⟩, ⟨1⟩, ⟨2⟩, ⟨0⟩, ⟨2⟩, ⟨2⟩, ⟨0⟩, ⟨2⟩, ⟨3⟩] 5 3
      (by decide) (by decide) (by decide) (by decide)⟩

/-- Claim C2, as stated, fails: the counters are declared at the top of the function and
are not reset between the frames of a batch. A second frame without any detection is
labelled `"Person = 1 Vehicle = 0 "` when the first frame of its batch holds one person,
and `"Person = 0 Vehicle = 0 "` when the first frame is empty. -/
theorem second_frame_label_depends_on_first :
    (osd_sink_pad_buffer_probe ⟨0⟩ ⟨[⟨[⟨2⟩]⟩, ⟨[]⟩]⟩).map label_texts
      = some ["Person = 1 Vehicle = 0 ", "Person = 1 Vehicle = 0 "] ∧
    (osd_sink_pad_buffer_probe ⟨0⟩ ⟨[⟨[]⟩, ⟨[]⟩]⟩).map label_texts
      = some ["Person = 0 Vehicle = 0 ", "Person = 0 Vehicle = 0 "] := by
  decide

theorem fmt_d_mod (v : Nat) : fmt_d (v % 2 ^ 32) = fmt_d v := by
  simp only [fmt_d, Nat.mod_mod]

theorem count_objs_zero (objs : List NvDsObjectMeta) :
    count_objs ⟨0, 0, 0⟩ objs =
      ⟨(objs.countP (fun o => o.class_id = PGIE_CLASS_ID_VEHICLE) +
          objs.countP (fun o => o.class_id = PGIE_CLASS_ID_PERSON)) % 2 ^ 32,
        objs.countP (fun o => o.class_id = PGIE_CLASS_ID_VEHICLE) % 2 ^ 32,
        objs.countP (fun o => o.class_id = PGIE_CLASS_ID_PERSON) % 2 ^ 32⟩ := by
  have hc := count_objs_from objs 0 0 0
  simpa only [Nat.zero_mod, Nat.zero_add] using hc

/-- Claim C2, amended: for every batch, the label attached to its first frame holds the two
fields formatted from the person tally and the vehicle tally of that frame alone, whatever
the other frames of the batch and the calls before; and for a batch of a single frame, the
only batches a muxer with batch-size 1 forms, that label is the only one attached and the
tallies logged are those of that frame, counted modulo `2 ^ 32`. -/
theorem first_frame_label_own (g : Globals) (frame_meta : NvDsFrameMeta)
    (rest : List NvDsFrameMeta) :
    (∃ r, osd_sink_pad_buffer_probe g ⟨frame_meta :: rest⟩ = some r ∧
      r.display_meta.head? = some (label_meta (String.mk
        (person_field
            (frame_meta.obj_meta_list.countP (fun o => o.class_id = PGIE_CLASS_ID_PERSON)) ++
          vehicle_field
            (frame_meta.obj_meta_list.countP (fun o => o.class_id = PGIE_CLASS_ID_VEHICLE)))))) ∧
    (∃ r, osd_sink_pad_buffer_probe g ⟨[frame_meta]⟩ = some r ∧
      r.display_meta = [label_meta (String.mk
        (person_field
            (frame_meta.obj_meta_list.countP (fun o => o.class_id = PGIE_CLASS_ID_PERSON)) ++
          vehicle_field
            (frame_meta.obj_meta_list.countP (fun o => o.class_id = PGIE_CLASS_ID_VEHICLE))))] ∧
      r.log.person_count =
        frame_meta.obj_meta_list.countP (fun o => o.class_id = PGIE_CLASS_ID_PERSON) % 2 ^ 32 ∧
      r.log.vehicle_count =
        frame_meta.obj_meta_list.countP (fun o => o.class_id = PGIE_CLASS_ID_VEHICLE) % 2 ^ 32) := by
  have hc := count_objs_zero frame_meta.obj_meta_list
  constructor
  · obtain ⟨r, hr⟩ := frame_loop_returns rest (count_objs ⟨0, 0, 0⟩ frame_meta.obj_meta_list)
    have hp : osd_sink_pad_buffer_probe g ⟨frame_meta :: rest⟩ =
        some
          { ret := GstPadProbeReturn.GST_PAD_PROBE_OK
            globals := { g with frame_number := gint_incr g.frame_number }
            display_meta := label_meta (String.mk
              (person_field (count_objs ⟨0, 0, 0⟩ frame_meta.obj_meta_list).person_count ++
                vehicle_field (count_objs ⟨0, 0, 0⟩ frame_meta.obj_meta_list).vehicle_count)) :: r.2
            log := ⟨g.frame_number, r.1.num_rects, r.1.vehicle_count, r.1.person_count⟩ } := by
      unfold osd_sink_pad_buffer_probe
      simp only [frame_loop_cons, hr, Option.map_some']
    refine ⟨_, hp, ?_⟩
    simp only [List.head?_cons, hc, person_field, vehicle_field, fmt_d_mod]
  · have hp : osd_sink_pad_buffer_probe g ⟨[frame_meta]⟩ =
        some
          { ret := GstPadProbeReturn.GST_PAD_PROBE_OK
            globals := { g with frame_number := gint_incr g.frame_number }
            display_meta := [label_meta (String.mk
              (person_field (count_objs ⟨0, 0, 0⟩ frame_meta.obj_meta_list).person_count ++
                vehicle_field (count_objs ⟨0, 0, 0⟩ frame_meta.obj_meta_list).vehicle_count))]
            log := ⟨g.frame_number,
              (count_objs ⟨0, 0, 0⟩ frame_meta.obj_meta_list).num_rects,
              (count_objs ⟨0, 0, 0⟩ frame_meta.obj_meta_list).vehicle_count,
              (count_objs ⟨0, 0, 0⟩ frame_meta.obj_meta_list).person_count⟩ } := by
      unfold osd_sink_pad_buffer_probe
      simp only [frame_loop, make_display_meta_eq]
    refine ⟨_, hp, ?_, ?_, ?_⟩
    · simp only [hc, person_field, vehicle_field, fmt_d_mod]
    · simp only [hc]
    · simp only [hc]

/-- Claim C3: two batches whose frames differ only by detections of classes other than
vehicle (0) and person (2), inserted or removed anywhere, get the same result from the
probe: the same tallies and object count in the log, the same labels, the same frame
counter; and the probe returns `GST_PAD_PROBE_OK`. -/
theorem untracked_detections_ignored (g : Globals) (b1 b2 : NvDsBatchMeta)
    (h : List.Forall₂ (fun f1 f2 : NvDsFrameMeta =>
      f1.obj_meta_list.filter is_tracked = f2.obj_meta_list.filter is_tracked)
      b1.frame_meta_list b2.frame_meta_list) :
    osd_sink_pad_buffer_probe g b1 = osd_sink_pad_buffer_probe g b2 ∧
      ∃ r, osd_sink_pad_buffer_probe g b2 = some r ∧
        r.ret = GstPadProbeReturn.GST_PAD_PROBE_OK := by
  constructor
  · apply probe_congr
    apply frame_loop_congr
    refine h.imp ?_
    intro f1 f2 hf c
    rw [← count_objs_filter f1.obj_meta_list, hf, count_objs_filter]
  · obtain ⟨r, hr, hok, _⟩ := probe_returns g b2
    exact ⟨r, hr, hok⟩

/-- Detections of classes 1, 3, 7 and -4 inserted into a frame change nothing. -/
theorem untracked_detections_ignored_witness :
    List.Forall₂ (fun f1 f2 : NvDsFrameMeta =>
        f1.obj_meta_list.filter is_tracked = f2.obj_meta_list.filter is_tracked)
      [⟨[⟨0⟩, ⟨2⟩, ⟨2⟩]⟩] [⟨[⟨1⟩, ⟨0⟩, ⟨3⟩, ⟨2⟩, ⟨7⟩, ⟨2⟩, ⟨-4⟩]⟩] ∧
    (osd_sink_pad_buffer_probe ⟨41⟩ ⟨[⟨[⟨0⟩, ⟨2⟩, ⟨2⟩]⟩]⟩ =
        osd_sink_pad_buffer_probe ⟨41⟩ ⟨[⟨[⟨1⟩, ⟨0⟩, ⟨3⟩, ⟨2⟩, ⟨7⟩, ⟨2⟩, ⟨-4⟩]⟩]⟩ ∧
      ∃ r, osd_sink_pad_buffer_probe ⟨41⟩ ⟨[⟨[⟨1⟩, ⟨0⟩, ⟨3⟩, ⟨2⟩, ⟨7⟩, ⟨2⟩, ⟨-4⟩]⟩]⟩ = some r ∧
        r.ret = GstPadProbeReturn.GST_PAD_PROBE_OK) :=
  ⟨List.Forall₂.cons (by decide) List.Forall₂.nil,
    untracked_detections_ignored ⟨41⟩ ⟨[⟨[⟨0⟩, ⟨2⟩, ⟨2⟩]⟩]⟩
      ⟨[⟨[⟨1⟩, ⟨0⟩, ⟨3⟩, ⟨2⟩, ⟨7⟩, ⟨2⟩, ⟨-4⟩]⟩]⟩
      (List.Forall₂.cons (by decide) List.Forall₂.nil)⟩

/-- Claim C4: permuting the detection list of any frame of a batch leaves the whole result
of the probe unchanged: the vehicle tally, the person tally, the object count and every
label text. -/
theorem detection_order_irrelevant (g : Globals) (b1 b2 : NvDsBatchMeta)
    (h : List.Forall₂ (fun f1 f2 : NvDsFrameMeta => f1.obj_meta_list.Perm f2.obj_meta_list)
      b1.frame_meta_list b2.frame_meta_list) :
    osd_sink_pad_buffer_probe g b1 = osd_sink_pad_buffer_probe g b2 := by
  apply probe_congr
  apply frame_loop_congr
  exact h.imp (fun _ _ hf c => count_objs_perm hf c)

/-- Swapping the first two detections of a frame changes nothing. -/
theorem detection_order_irrelevant_witness :
    List.Forall₂ (fun f1 f2 : NvDsFrameMeta => f1.obj_meta_list.Perm f2.obj_meta_list)
      [⟨[⟨0⟩, ⟨2⟩, ⟨1⟩, ⟨2⟩]⟩] [⟨[⟨2⟩, ⟨0⟩, ⟨1⟩, ⟨2⟩]⟩] ∧
    osd_sink_pad_buffer_probe ⟨7⟩ ⟨[⟨[⟨0⟩, ⟨2⟩, ⟨1⟩, ⟨2⟩]⟩]⟩ =
      osd_sink_pad_buffer_probe ⟨7⟩ ⟨[⟨[⟨2⟩, ⟨0⟩, ⟨1⟩, ⟨2⟩]⟩]⟩ :=
  ⟨List.Forall₂.cons (List.Perm.swap _ _ _) List.Forall₂.nil,
    detection_order_irrelevant ⟨7⟩ ⟨[⟨[⟨0⟩, ⟨2⟩, ⟨1⟩, ⟨2⟩]⟩]⟩ ⟨[⟨[⟨2⟩, ⟨0⟩, ⟨1⟩, ⟨2⟩]⟩]⟩
      (List.Forall₂.cons (List.Perm.swap _ _ _) List.Forall₂.nil)⟩

/-! ## The frame counter -/

theorem bus_call_globals (g : Globals) (msg : GstMessage) (loop : GMainLoop) :
    (bus_call g msg loop).globals = g := by
  unfold bus_call
  split_ifs <;> rfl

theorem bus_call_ret (g : Globals) (msg : GstMessage) (loop : GMainLoop) :
    (bus_call g msg loop).ret = true := by
  unfold bus_call
  split_ifs <;> rfl

theorem bus_call_loop (g : Globals) (msg : GstMessage) (loop : GMainLoop) :
    (bus_call g msg loop).loop =
      if msg.type = GST_MESSAGE_ERROR ∨ msg.type = GST_MESSAGE_EOS then g_main_loop_quit loop
      else loop := by
  unfold bus_call
  by_cases h1 : msg.type = GST_MESSAGE_EOS
  · rw [if_pos h1, if_pos (Or.inr h1)]
  · by_cases h2 : msg.type = GST_MESSAGE_ERROR
    · rw [if_neg h1, if_pos h2, if_pos (Or.inl h2)]
    · rw [if_neg h1, if_neg h2, if_neg (by tauto)]

theorem dispatch_globals (msgs : List GstMessage) :
    ∀ (g : Globals) (loop : GMainLoop) (out : List String),
      (dispatch g loop out msgs).globals = g := by
  induction msgs with
  | nil => intro g loop out; rfl
  | cons m ms ih =>
    intro g loop out
    simp only [dispatch, bus_call_globals, bus_call_ret, if_true]
    split
    · rfl
    · exact ih _ _ _

theorem main_playback_globals (g : Globals) (env : RtspServerEnv) (bus : List GstMessage) :
    (main_playback g env bus).globals = g := by
  unfold main_playback
  simp only
  split
  · rfl
  · simp only [g_main_loop_run]
    split <;> exact dispatch_globals _ _ _ _

theorem main_globals (e : Elements) (env : RtspServerEnv) (bus : List GstMessage) :
    (main e env bus).globals = Globals.initial := by
  unfold main
  simp only [main_abort]
  split_ifs
  all_goals first
    | rfl
    | exact main_playback_globals _ _ _

/-- Claim C8, as stated, fails: called with `frame_number = G_MAXINT` the probe leaves
`frame_number` at `G_MININT`, which is not greater than before. -/
theorem frame_number_wraps :
    (osd_sink_pad_buffer_probe ⟨2147483647⟩ ⟨[]⟩).map (fun r => r.globals.frame_number)
      = some (-2147483648) ∧
    ¬ ∃ r, osd_sink_pad_buffer_probe ⟨2147483647⟩ ⟨[]⟩ = some r ∧
      (2147483647 : Int) < r.globals.frame_number := by
  constructor
  · decide
  · rintro ⟨r, hr, hlt⟩
    have h : osd_sink_pad_buffer_probe ⟨2147483647⟩ ⟨[]⟩ =
        some ⟨GstPadProbeReturn.GST_PAD_PROBE_OK, ⟨-2147483648⟩, [], ⟨2147483647, 0, 0, 0⟩⟩ := by
      decide
    rw [h] at hr
    cases hr
    exact absurd hlt (by decide)

/-- Claim C8, amended: whenever `frame_number` is below `G_MAXINT = 2 ^ 31 - 1` before
the call, every call of the probe, whatever the batch holds, returns and leaves
`frame_number` greater by exactly one; the value logged is the value before the call; and
`bus_call`, `start_rtsp_streaming` and `main` leave `frame_number` as it was. -/
theorem frame_number_increases (g : Globals) (batch_meta : NvDsBatchMeta)
    (h : g.frame_number < 2 ^ 31 - 1) :
    (∃ r, osd_sink_pad_buffer_probe g batch_meta = some r ∧
      r.globals.frame_number = g.frame_number + 1 ∧
      g.frame_number < r.globals.frame_number ∧
      r.log.frame_number = g.frame_number) ∧
    (∀ msg loop, (bus_call g msg loop).globals = g) ∧
    (∀ rtsp_port_num updsink_port_num env,
      (start_rtsp_streaming g rtsp_port_num updsink_port_num env).globals = g) ∧
    (∀ e env bus, (main e env bus).globals = Globals.initial) := by
  refine ⟨?_, bus_call_globals g, fun _ _ _ => rfl, main_globals⟩
  obtain ⟨r, hr, _, hnum, hlog⟩ := probe_returns g batch_meta
  have hinc : gint_incr g.frame_number = g.frame_number + 1 := by
    unfold gint_incr
    rw [if_neg (by omega)]
  rw [hinc] at hnum
  exact ⟨r, hr, hnum, by omega, hlog⟩

/-- At `frame_number = 41` a call on a batch of two frames leaves `frame_number = 42`. -/
theorem frame_number_increases_witness :
    (41 : Int) < 2 ^ 31 - 1 ∧
    ((∃ r, osd_sink_pad_buffer_probe ⟨41⟩ ⟨[⟨[⟨2⟩]⟩, ⟨[⟨0⟩, ⟨5⟩]⟩]⟩ = some r ∧
      r.globals.frame_number = (41 : Int) + 1 ∧
      (41 : Int) < r.globals.frame_number ∧
      r.log.frame_number = 41) ∧
    (∀ msg loop, (bus_call ⟨41⟩ msg loop).globals = ⟨41⟩) ∧
    (∀ rtsp_port_num updsink_port_num env,
      (start_rtsp_streaming ⟨41⟩ rtsp_port_num updsink_port_num env).globals = ⟨41⟩) ∧
    (∀ e env bus, (main e env bus).globals = Globals.initial)) :=
  ⟨by decide, frame_number_increases ⟨41⟩ ⟨[⟨[⟨2⟩]⟩, ⟨[⟨0⟩, ⟨5⟩]⟩]⟩ (by decide)⟩

/-! ## The bus handler and shutdown -/

/-- Claim C6: `bus_call` returns `TRUE` for every message; for an Error message and for
an EndOfStream message the loop it is given is quit, that is, no longer running; for every
other message type, state-changed for one, the loop is left as it was. -/
theorem bus_call_dispatch (g : Globals) (msg : GstMessage) (loop : GMainLoop) :
    (bus_call g msg loop).ret = true ∧
    (bus_call g msg loop).loop =
      (if msg.type = GST_MESSAGE_ERROR ∨ msg.type = GST_MESSAGE_EOS then g_main_loop_quit loop
       else loop) ∧
    (g_main_loop_quit loop).is_running = false ∧
    (bus_call g { msg with type := GST_MESSAGE_STATE_CHANGED } loop).loop = loop :=
  ⟨bus_call_ret g msg loop, bus_call_loop g msg loop, rfl, rfl⟩

theorem deliver_cons (g : Globals) (loop : GMainLoop) (m : GstMessage) (ms : List GstMessage) :
    deliver g loop (m :: ms) = deliver g (bus_call g m loop).loop ms := by
  simp only [deliver, List.foldl_cons, bus_call_globals]

theorem bus_call_error_loop (g : Globals) (m : GstMessage) (loop : GMainLoop)
    (hm : m.type = GST_MESSAGE_ERROR) : (bus_call g m loop).loop = { is_running := false } := by
  rw [bus_call_loop, if_pos (Or.inl hm)]
  rfl

theorem deliver_errors_stopped (g : Globals) (ms : List GstMessage)
    (h : ∀ m ∈ ms, m.type = GST_MESSAGE_ERROR) :
    deliver g { is_running := false } ms = (g, { is_running := false }) := by
  induction ms with
  | nil => rfl
  | cons m ms ih =>
    rw [deliver_cons, bus_call_error_loop g m _ (h m (List.mem_cons_self _ _))]
    exact ih (fun x hx => h x (List.mem_cons_of_mem _ hx))

theorem deliver_errors (g : Globals) (loop : GMainLoop) (errs : List GstMessage)
    (hne : errs ≠ []) (h : ∀ m ∈ errs, m.type = GST_MESSAGE_ERROR) :
    deliver g loop errs = (g, { is_running := false }) := by
  cases errs with
  | nil => exact absurd rfl hne
  | cons m ms =>
    rw [deliver_cons, bus_call_error_loop g m _ (h m (List.mem_cons_self _ _))]
    exact deliver_errors_stopped g ms (fun x hx => h x (List.mem_cons_of_mem _ hx))

theorem pop_matches (types : Nat) (bus : List GstMessage) :
    ∀ m rest, gst_bus_timed_pop_filtered types bus = some (m, rest) → m.type &&& types ≠ 0 := by
  induction bus with
  | nil => intro m rest h; simp [gst_bus_timed_pop_filtered] at h
  | cons x xs ih =>
    intro m rest h
    unfold gst_bus_timed_pop_filtered at h
    by_cases hx : x.type &&& types ≠ 0
    · rw [if_pos hx] at h
      cases h
      exact hx
    · rw [if_neg hx] at h
      exact ih m rest h

theorem pop_of_matches (types : Nat) (m : GstMessage) (rest : List GstMessage)
    (h : m.type &&& types ≠ 0) :
    gst_bus_timed_pop_filtered types (m :: rest) = some (m, rest) := by
  unfold gst_bus_timed_pop_filtered
  rw [if_pos h]

theorem bus_call_quiet_loop (g : Globals) (m : GstMessage) (loop : GMainLoop)
    (hm : m.type ≠ GST_MESSAGE_ERROR ∧ m.type ≠ GST_MESSAGE_EOS) :
    (bus_call g m loop).loop = loop := by
  rw [bus_call_loop, if_neg (by tauto)]

theorem dispatch_quiet (quiet : List GstMessage) :
    ∀ (g : Globals) (out : List String) (rest : List GstMessage),
      (∀ m ∈ quiet, m.type ≠ GST_MESSAGE_ERROR ∧ m.type ≠ GST_MESSAGE_EOS) →
      ∃ out2, dispatch g { is_running := true } out (quiet ++ rest) =
        dispatch g { is_running := true } out2 rest := by
  induction quiet with
  | nil => intro g out rest _; exact ⟨out, rfl⟩
  | cons m ms ih =>
    intro g out rest h
    have hm := h m (List.mem_cons_self _ _)
    obtain ⟨out2, h2⟩ := ih g (out ++ (bus_call g m { is_running := true }).out) rest
      (fun x hx => h x (List.mem_cons_of_mem _ hx))
    refine ⟨out2, ?_⟩
    rw [List.cons_append, dispatch]
    simp only [bus_call_quiet_loop g m _ hm, bus_call_globals, bus_call_ret]
    exact h2

theorem dispatch_error_returns (g : Globals) (loop : GMainLoop) (out : List String)
    (m : GstMessage) (rest : List GstMessage) (hm : m.type = GST_MESSAGE_ERROR) :
    (dispatch g loop out (m :: rest)).returned = true := by
  simp only [dispatch, bus_call_error_loop _ m _ hm]
  rfl

theorem main_all_created (env : RtspServerEnv) (bus : List GstMessage) :
    main all_created env bus = main_playback Globals.initial env bus := rfl

theorem main_after_errors (env : RtspServerEnv) (bus : List GstMessage) (first : GstMessage)
    (quiet errs later : List GstMessage)
    (hpop : gst_bus_timed_pop_filtered (GST_MESSAGE_ERROR ||| GST_MESSAGE_EOS) bus =
      some (first, quiet ++ errs ++ later))
    (hquiet : ∀ m ∈ quiet, m.type ≠ GST_MESSAGE_ERROR ∧ m.type ≠ GST_MESSAGE_EOS)
    (hne : errs ≠ []) (h : ∀ m ∈ errs, m.type = GST_MESSAGE_ERROR) :
    (main all_created env bus).outcome = MainExit.returned 0 ∧
      (main all_created env bus).set_state_calls =
        [GstState.GST_STATE_PLAYING, GstState.GST_STATE_NULL] := by
  obtain ⟨m, ms, rfl⟩ := List.exists_cons_of_ne_nil hne
  have hm : m.type = GST_MESSAGE_ERROR := h m (List.mem_cons_self _ _)
  have hrun : (dispatch Globals.initial { is_running := true } []
      (quiet ++ (m :: ms) ++ later)).returned = true := by
    obtain ⟨out2, h2⟩ := dispatch_quiet quiet Globals.initial [] ((m :: ms) ++ later) hquiet
    rw [List.append_assoc, h2, List.cons_append]
    exact dispatch_error_returns _ _ _ m _ hm
  rw [main_all_created]
  unfold main_playback
  simp only [hpop, g_main_loop_run, start_rtsp_streaming, hrun, if_true]
  exact ⟨trivial, trivial⟩

/-- Claim C7: from the Playing state with the loop running, delivering any non-empty
sequence of Error events to `bus_call` leaves the same state as delivering a single one
(globals untouched, loop stopped); a second Error after the first changes nothing; and a
run of `main` with every element created, on any bus where `gst_bus_timed_pop_filtered`
takes a first message and the loop is then handed other messages followed by the Error
events, returns 0 after requesting the Null state exactly once, as with a single Error. -/
theorem error_shutdown_idempotent (g : Globals) (errs : List GstMessage) (e : GstMessage)
    (env : RtspServerEnv) (bus : List GstMessage) (first : GstMessage)
    (quiet later : List GstMessage)
    (hne : errs ≠ []) (herrs : ∀ m ∈ errs, m.type = GST_MESSAGE_ERROR)
    (he : e.type = GST_MESSAGE_ERROR)
    (hpop : gst_bus_timed_pop_filtered (GST_MESSAGE_ERROR ||| GST_MESSAGE_EOS) bus =
      some (first, quiet ++ errs ++ later))
    (hquiet : ∀ m ∈ quiet, m.type ≠ GST_MESSAGE_ERROR ∧ m.type ≠ GST_MESSAGE_EOS) :
    deliver g { is_running := true } errs = deliver g { is_running := true } [e] ∧
    deliver g { is_running := true } errs = (g, { is_running := false }) ∧
    deliver g (deliver g { is_running := true } [e]).2 [e] = deliver g { is_running := true } [e] ∧
    (main all_created env bus).outcome = MainExit.returned 0 ∧
    (main all_created env bus).set_state_calls =
      [GstState.GST_STATE_PLAYING, GstState.GST_STATE_NULL] ∧
    (main all_created env bus).set_state_calls =
      (main all_created env [first, e]).set_state_calls := by
  have he1 : ∀ m ∈ [e], m.type = GST_MESSAGE_ERROR := by
    intro m hm
    rw [List.mem_singleton.mp hm]
    exact he
  have h1 := deliver_errors g { is_running := true } errs hne herrs
  have h2 := deliver_errors g { is_running := true } [e] (by simp) he1
  have h3 := main_after_errors env bus first quiet errs later hpop hquiet hne herrs
  have hpop2 : gst_bus_timed_pop_filtered (GST_MESSAGE_ERROR ||| GST_MESSAGE_EOS) [first, e] =
      some (first, [] ++ [e] ++ []) :=
    pop_of_matches _ first [e] (pop_matches _ bus first _ hpop)
  have h4 := main_after_errors env [first, e] first [] [e] [] hpop2 (by simp) (by simp) he1
  refine ⟨h1.trans h2.symm, h1, ?_, h3.1, h3.2, h3.2.trans h4.2.symm⟩
  rw [h2]
  exact deliver_errors g _ [e] (by simp) he1

/-- A bus carrying a state-changed message, an EndOfStream message (the one
`gst_bus_timed_pop_filtered` takes), a state-changed message, two Error messages and a
last state-changed message. -/
theorem error_shutdown_idempotent_witness :
    ([⟨2, "tcp-stream", "not linked", none⟩, ⟨2, "sink", "no route", some "udp"⟩] :
        List GstMessage) ≠ [] ∧
    (∀ m ∈ ([⟨2, "tcp-stream", "not linked", none⟩, ⟨2, "sink", "no route", some "udp"⟩] :
        List GstMessage), m.type = GST_MESSAGE_ERROR) ∧
    (⟨2, "tcp-stream", "not linked", none⟩ : GstMessage).type = GST_MESSAGE_ERROR ∧
    gst_bus_timed_pop_filtered (GST_MESSAGE_ERROR ||| GST_MESSAGE_EOS)
        [⟨64, "ardrone-pipeline", "", none⟩, ⟨1, "ardrone-pipeline", "", none⟩,
          ⟨64, "sink", "", none⟩, ⟨2, "tcp-stream", "not linked", none⟩,
          ⟨2, "sink", "no route", some "udp"⟩, ⟨64, "sink", "", none⟩] =
      some (⟨1, "ardrone-pipeline", "", none⟩,
        [⟨64, "sink", "", none⟩] ++
          [⟨2, "tcp-stream", "not linked", none⟩, ⟨2, "sink", "no route", some "udp"⟩] ++
          [⟨64, "sink", "", none⟩]) ∧
    (∀ m ∈ ([⟨64, "sink", "", none⟩] : List GstMessage),
      m.type ≠ GST_MESSAGE_ERROR ∧ m.type ≠ GST_MESSAGE_EOS) ∧
    (deliver ⟨7⟩ { is_running := true }
        [⟨2, "tcp-stream", "not linked", none⟩, ⟨2, "sink", "no route", some "udp"⟩] =
      deliver ⟨7⟩ { is_running := true } [⟨2, "tcp-stream", "not linked", none⟩] ∧
    deliver ⟨7⟩ { is_running := true }
        [⟨2, "tcp-stream", "not linked", none⟩, ⟨2, "sink", "no route", some "udp"⟩] =
      (⟨7⟩, { is_running := false }) ∧
    deliver ⟨7⟩ (deliver ⟨7⟩ { is_running := true } [⟨2, "tcp-stream", "not linked", none⟩]).2
        [⟨2, "tcp-stream", "not linked", none⟩] =
      deliver ⟨7⟩ { is_running := true } [⟨2, "tcp-stream", "not linked", none⟩] ∧
    (main all_created ⟨false, 1⟩
        [⟨64, "ardrone-pipeline", "", none⟩, ⟨1, "ardrone-pipeline", "", none⟩,
          ⟨64, "sink", "", none⟩, ⟨2, "tcp-stream", "not linked", none⟩,
          ⟨2, "sink", "no route", some "udp"⟩, ⟨64, "sink", "", none⟩]).outcome
      = MainExit.returned 0 ∧
    (main all_created ⟨false, 1⟩
        [⟨64, "ardrone-pipeline", "", none⟩, ⟨1, "ardrone-pipeline", "", none⟩,
          ⟨64, "sink", "", none⟩, ⟨2, "tcp-stream", "not linked", none⟩,
          ⟨2, "sink", "no route", some "udp"⟩, ⟨64, "sink", "", none⟩]).set_state_calls
      = [GstState.GST_STATE_PLAYING, GstState.GST_STATE_NULL] ∧
    (main all_created ⟨false, 1⟩
        [⟨64, "ardrone-pipeline", "", none⟩, ⟨1, "ardrone-pipeline", "", none⟩,
          ⟨64, "sink", "", none⟩, ⟨2, "tcp-stream", "not linked", none⟩,
          ⟨2, "sink", "no route", some "udp"⟩, ⟨64, "sink", "", none⟩]).set_state_calls
      = (main all_created ⟨false, 1⟩ [⟨1, "ardrone-pipeline", "", none⟩,
          ⟨2, "tcp-stream", "not linked", none⟩]).set_state_calls) :=
  ⟨by decide, by decide, by decide, by decide, by decide,
    error_shutdown_idempotent ⟨7⟩
      [⟨2, "tcp-stream", "not linked", none⟩, ⟨2, "sink", "no route", some "udp"⟩]
      ⟨2, "tcp-stream", "not linked", none⟩ ⟨false, 1⟩
      [⟨64, "ardrone-pipeline", "", none⟩, ⟨1, "ardrone-pipeline", "", none⟩,
        ⟨64, "sink", "", none⟩, ⟨2, "tcp-stream", "not linked", none⟩,
        ⟨2, "sink", "no route", some "udp"⟩, ⟨64, "sink", "", none⟩]
      ⟨1, "ardrone-pipeline", "", none⟩ [⟨64, "sink", "", none⟩] [⟨64, "sink", "", none⟩]
      (by decide) (by decide) (by decide) (by decide) (by decide)⟩

/-! ## Start-up -/

/-- When one of the seven elements `main` tests is `NULL`, `main` returns -1 and never
calls `gst_element_set_state`. -/
theorem main_aborts_on_checked_null (e : Elements) (env : RtspServerEnv) (bus : List GstMessage)
    (h : checked_created e = false) :
    (main e env bus).outcome = MainExit.returned (-1) ∧ (main e env bus).set_state_calls = [] := by
  unfold main
  simp only [main_abort]
  split_ifs
  all_goals first
    | exact ⟨rfl, rfl⟩
    | (exfalso; simp_all [checked_created])

/-- When the seven elements `main` tests are there and one of the other eight is `NULL`,
the process dies in the capability dumps: `main` neither returns nor calls
`gst_element_set_state`. -/
theorem main_dies_on_unchecked_null (e : Elements) (env : RtspServerEnv) (bus : List GstMessage)
    (h1 : checked_created e = true) (h2 : unchecked_created e = false) :
    (main e env bus).outcome = MainExit.crashed ∧ (main e env bus).set_state_calls = [] := by
  simp only [checked_created, Bool.and_eq_true] at h1
  obtain ⟨⟨⟨⟨⟨⟨c1, c2⟩, c3⟩, c4⟩, c5⟩, c6⟩, c7⟩ := h1
  have hd : capability_dumps e = false := by
    rw [← h2]
    simp only [capability_dumps, unchecked_created, print_pad_templates_information,
      gst_element_get_factory, List.all_cons, List.all_nil, c2, c3, c7, Bool.true_and,
      Bool.and_true]
    cases e.filter_src <;> cases e.pgie <;> cases e.nvvidconv <;> cases e.nvosd <;>
      cases e.transform <;> cases e.cap_filter <;> cases e.encoder <;> cases e.rtppay <;> rfl
  unfold main
  simp only [c1, c2, c3, c4, c5, c6, c7, hd, Bool.not_true, Bool.not_false, Bool.or_self,
    Bool.false_eq_true, if_false, if_true]
  exact ⟨trivial, trivial⟩

/-- When any of the fifteen elements is `NULL`, `main` never calls `gst_element_set_state`
and does not return 0. -/
theorem main_null_never_plays (e : Elements) (env : RtspServerEnv) (bus : List GstMessage)
    (h : checked_created e = false ∨ unchecked_created e = false) :
    (main e env bus).set_state_calls = [] ∧ (main e env bus).outcome ≠ MainExit.returned 0 := by
  cases hc : checked_created e
  · obtain ⟨h1, h2⟩ := main_aborts_on_checked_null e env bus hc
    refine ⟨h2, ?_⟩
    rw [h1]
    decide
  · have hu : unchecked_created e = false := by
      rcases h with h | h
      · rw [hc] at h; cases h
      · exact h
    obtain ⟨h1, h2⟩ := main_dies_on_unchecked_null e env bus hc hu
    refine ⟨h2, ?_⟩
    rw [h1]
    decide

/-- Claim C5 fails on the code: with `nvosd` `NULL` and every other element created,
`main` passes all its `NULL` tests and the process dies in the capability dump of `nvosd`:
`main` does not return -1 or any other value, whatever the RTSP library and the bus do. -/
theorem main_dies_with_null_nvosd :
    (∀ env bus, (main { all_created with nvosd := false } env bus).outcome = MainExit.crashed) ∧
    (∀ env bus code,
      (main { all_created with nvosd := false } env bus).outcome ≠ MainExit.returned code) ∧
    (∀ env bus, (main { all_created with nvosd := false } env bus).set_state_calls = []) := by
  refine ⟨fun _ _ => rfl, fun env bus code h => ?_, fun _ _ => rfl⟩
  have hc : (main { all_created with nvosd := false } env bus).outcome = MainExit.crashed := rfl
  rw [hc] at h
  cases h

/-- Claim C9 fails on the code: `start_rtsp_streaming` returns `TRUE` whatever the RTSP
library reports, also when the path is already mounted and `gst_rtsp_server_attach`
returns 0; the line of the failure branch of `main` is then not printed. -/
theorem start_rtsp_streaming_always_true :
    (∀ g rtsp_port_num updsink_port_num env,
      (start_rtsp_streaming g rtsp_port_num updsink_port_num env).ret = true) ∧
    (start_rtsp_streaming Globals.initial 8554 5400 ⟨true, 0⟩).ret = true ∧
    "main: start_rtsp_straming function failed\n" ∉
      (main all_created ⟨true, 0⟩
        [⟨2, "tcp-stream", "not linked", none⟩, ⟨1, "ardrone-pipeline", "", none⟩]).out :=
  ⟨fun _ _ _ _ => rfl, rfl, by decide⟩

end ArDrone
